import Mathlib

/-!
Verification of the self-healing selector engine
(`SelfHealingSelector` in `src/utils/ai-helpers/self-healing-selector` style
module, found in the repository source).

The engine is shallowly embedded:
* the live document is a resolvability predicate `resolves : String → Bool`
  standing for `page.locator(s).first().waitFor({timeout: 2000})` succeeding;
* the AI backend (`aiClient.askWithImage`) is an `Option String`: `some raw`
  when the call returns text, `none` when any step of the screenshot /
  page-structure / backend sequence throws (all are caught by the same
  `try` block in `healSelector` and turned into `null`);
* the in-memory cache object is an association list with unique keys, the
  persisted cache file is an `Option` of such a list (`none` = file absent);
* wall-clock time (`Date.now()`) is a `Nat` of milliseconds supplied per call.
-/

/-- One value of the `SelectorHealingCache` record: `{ healedSelector,
timestamp, confidence }`. Confidence is the JS number `0.8`, modelled as an
exact rational. -/
structure CacheEntry where
  healedSelector : String
  timestamp : Nat
  confidence : Rat
  deriving Repr, DecidableEq

/-- The in-memory cache map `SelectorHealingCache`: JS object keyed by the
original selector string, modelled as an association list. -/
abbrev SelectorHealingCache := List (String × CacheEntry)

/-- Lookup `this.cache[selector]`. -/
def cacheGet (c : SelectorHealingCache) (k : String) : Option CacheEntry :=
  match c with
  | [] => none
  | (k2, v) :: rest => if k2 = k then some v else cacheGet rest k

/-- Assignment `this.cache[selector] = entry` (overwrites in place, else
appends). -/
def cacheSet (c : SelectorHealingCache) (k : String) (v : CacheEntry) :
    SelectorHealingCache :=
  match c with
  | [] => [(k, v)]
  | (k2, v2) :: rest =>
    if k2 = k then (k, v) :: rest else (k2, v2) :: cacheSet rest k v

/-- Deletion `delete this.cache[selector]`. -/
def cacheDelete (c : SelectorHealingCache) (k : String) :
    SelectorHealingCache :=
  match c with
  | [] => []
  | (k2, v) :: rest =>
    if k2 = k then cacheDelete rest k else (k2, v) :: cacheDelete rest k

/-- The mutable state owned by a `SelfHealingSelector` instance: the
in-memory map `this.cache` and the durable file `.selector-cache.json`
(`none` when the file does not exist). -/
structure FindState where
  cache : SelectorHealingCache
  file : Option SelectorHealingCache
  deriving Repr, DecidableEq

/-- `saveCache()`: synchronously serializes the full in-memory map to the
cache file (write errors are caught and only logged; the successful write is
modelled). -/
def saveCache (st : FindState) : FindState :=
  { st with file := some st.cache }

/-- `clearCache()`: resets the map to `{}` and unlinks the cache file if it
exists, so afterwards the file is absent either way. -/
def clearCache (_st : FindState) : FindState :=
  { cache := [], file := none }

/-- The per-call environment: the live document and the AI backend outcome. -/
structure HealEnv where
  resolves : String → Bool
  backend : Option String

/-- Character class of the regex `["']` used when cleaning the raw AI
response (double quote = code 34, single quote = code 39). -/
def isQuoteChar (c : Char) : Bool :=
  c == Char.ofNat 34 || c == Char.ofNat 39

/-- The white-space class of the JS `String.prototype.trim`: space, tab,
line feed, carriage return, vertical tab, form feed, no-break space, line
and paragraph separators, byte-order mark. -/
def isJsWhitespace (c : Char) : Bool :=
  c == Char.ofNat 32 || c == Char.ofNat 9 || c == Char.ofNat 10
    || c == Char.ofNat 13 || c == Char.ofNat 11 || c == Char.ofNat 12
    || c == Char.ofNat 160 || c == Char.ofNat 8232 || c == Char.ofNat 8233
    || c == Char.ofNat 65279

/-- JS `trim()` over the character list: drop white space from both ends. -/
def trimChars (l : List Char) : List Char :=
  ((l.dropWhile isJsWhitespace).reverse.dropWhile isJsWhitespace).reverse

/-- First half of the regex replace `.replace(/^["']|["']$/g, '')`: remove
one leading quote character. -/
def stripLeadQuote (l : List Char) : List Char :=
  match l with
  | [] => []
  | c :: rest => if isQuoteChar c then rest else c :: rest

/-- Second half of the regex replace: remove one trailing quote character. -/
def stripTrailQuote (l : List Char) : List Char :=
  match l.getLast? with
  | none => l
  | some c => if isQuoteChar c then l.dropLast else l

/-- `response.trim().replace(/^["']|["']$/g, '')` in `healSelector`. -/
def cleanResponse (raw : String) : String :=
  String.mk (stripTrailQuote (stripLeadQuote (trimChars raw.data)))

/-- The candidate string `healSelector` submits to its validation step:
the cleaned backend response, when the backend produced one. -/
def healCandidate (env : HealEnv) : Option String :=
  env.backend.map cleanResponse

/-- `healSelector(page, originalSelector, description)`: asks the backend
for a replacement selector, cleans it, and validates it against the live
document with the same 2-second bounded wait; returns `none` (JS `null`)
when the backend call throws or when the suggested selector fails the
validation check. The prompt text, screenshot and element inventory do not
influence which branch is taken, so they are not modelled. -/
def healSelector (env : HealEnv) : Option String :=
  match env.backend with
  | none => none
  | some raw =>
    let selector := cleanResponse raw
    if env.resolves selector then some selector else none

/-- The default confidence `0.8` recorded with a fresh cache entry. -/
def defaultConfidence : Rat := (4 : Rat) / 5

/-- The message of the error thrown when all paths are exhausted:
`Could not find or heal selector: ${selector}`. -/
def errorMessage (selector : String) : String :=
  "Could not find or heal selector: " ++ selector

/-- Outcome of one `findElement` call: the returned locator's selector
string or the thrown error message, the post-call state, and how many times
the repair requester (`healSelector`, the AI path) was invoked. -/
structure FindResult where
  result : Except String String
  state : FindState
  repairCalls : Nat
  deriving Repr

/-- The tail of `findElement` after primary and cache both failed: call
`healSelector` once; on success write the cache entry, save the cache file
and return the healed locator; on failure throw the resolution error. -/
def attemptHeal (env : HealEnv) (now : Nat) (st : FindState)
    (selector : String) : FindResult :=
  match healSelector env with
  | some healed =>
    let st2 := saveCache { st with
      cache := cacheSet st.cache selector
        { healedSelector := healed, timestamp := now,
          confidence := defaultConfidence } }
    { result := Except.ok healed, state := st2, repairCalls := 1 }
  | none =>
    { result := Except.error (errorMessage selector), state := st,
      repairCalls := 1 }

/-- `findElement(page, selector, description)`. With the feature disabled it
returns `page.locator(selector)` unconditionally (no lookup, no wait). With
it enabled: try the primary selector with a 2-second wait; on failure
consult the cache — a present entry younger than 3600000 ms is replayed
(returned on success, deleted without saving on failure), an older entry is
skipped — and finally attempt AI healing once. -/
def findElement (enabled : Bool) (env : HealEnv) (now : Nat) (st : FindState)
    (selector : String) : FindResult :=
  if !enabled then
    { result := Except.ok selector, state := st, repairCalls := 0 }
  else if env.resolves selector then
    { result := Except.ok selector, state := st, repairCalls := 0 }
  else
    match cacheGet st.cache selector with
    | some cached =>
      if (now : Int) - (cached.timestamp : Int) < 3600000 then
        if env.resolves cached.healedSelector then
          { result := Except.ok cached.healedSelector, state := st,
            repairCalls := 0 }
        else
          attemptHeal env now
            { st with cache := cacheDelete st.cache selector } selector
      else
        attemptHeal env now st selector
    | none => attemptHeal env now st selector

/-- `this.enabled = process.env.ENABLE_SELF_HEALING !== 'false'` in the
constructor; the argument is the environment variable (`none` = unset). -/
def selfHealingEnabled (v : Option String) : Bool :=
  v != some "false"

/-- Substring test on character lists, used to state what an error message
does or does not carry. -/
def listInfix (needle hay : List Char) : Bool :=
  match hay with
  | [] => needle.isEmpty
  | _ :: rest => needle.isPrefixOf hay || listInfix needle rest

/-! ### Helper lemmas about the cache association list and the healer -/

theorem cacheGet_set_self (c : SelectorHealingCache) (k : String)
    (v : CacheEntry) : cacheGet (cacheSet c k v) k = some v := by
  induction c with
  | nil => simp [cacheSet, cacheGet]
  | cons p rest ih =>
    obtain ⟨k2, v2⟩ := p
    by_cases h : k2 = k
    · simp [cacheSet, h, cacheGet]
    · simp [cacheSet, h, cacheGet, ih]

theorem cacheGet_set_cases (c : SelectorHealingCache) (k : String)
    (v : CacheEntry) (k2 : String) (e : CacheEntry)
    (h : cacheGet (cacheSet c k v) k2 = some e) :
    e = v ∨ cacheGet c k2 = some e := by
  induction c with
  | nil =>
    simp only [cacheSet, cacheGet] at h
    split at h
    · exact Or.inl (Option.some.inj h).symm
    · exact absurd h (by simp)
  | cons p rest ih =>
    obtain ⟨a, b⟩ := p
    by_cases hak : a = k
    · subst hak
      simp only [cacheSet, if_pos rfl, cacheGet] at h
      by_cases hk2 : a = k2
      · rw [if_pos hk2] at h
        exact Or.inl (Option.some.inj h).symm
      · rw [if_neg hk2] at h
        simp only [cacheGet, if_neg hk2]
        exact Or.inr h
    · simp only [cacheSet, if_neg hak, cacheGet] at h
      by_cases hk2 : a = k2
      · rw [if_pos hk2] at h
        simp only [cacheGet, if_pos hk2]
        exact Or.inr h
      · rw [if_neg hk2] at h
        simp only [cacheGet, if_neg hk2]
        exact ih h

theorem cacheGet_delete_self (c : SelectorHealingCache) (k : String) :
    cacheGet (cacheDelete c k) k = none := by
  induction c with
  | nil => simp [cacheDelete, cacheGet]
  | cons p rest ih =>
    obtain ⟨a, b⟩ := p
    by_cases hak : a = k
    · simp [cacheDelete, hak, ih]
    · simp [cacheDelete, hak, cacheGet, ih]

theorem cacheGet_delete_of (c : SelectorHealingCache) (k k2 : String)
    (e : CacheEntry) (h : cacheGet (cacheDelete c k) k2 = some e) :
    cacheGet c k2 = some e := by
  induction c with
  | nil => simp [cacheDelete, cacheGet] at h
  | cons p rest ih =>
    obtain ⟨a, b⟩ := p
    by_cases hak : a = k
    · subst hak
      have hd : cacheDelete ((a, b) :: rest) a = cacheDelete rest a := by
        simp [cacheDelete]
      rw [hd] at h
      by_cases hk2 : a = k2
      · subst hk2
        rw [cacheGet_delete_self] at h
        exact absurd h (by simp)
      · simp only [cacheGet, if_neg hk2]
        exact ih h
    · have hd : cacheDelete ((a, b) :: rest) k = (a, b) :: cacheDelete rest k := by
        simp [cacheDelete, hak]
      rw [hd] at h
      simp only [cacheGet] at h
      by_cases hk2 : a = k2
      · rw [if_pos hk2] at h
        simp only [cacheGet, if_pos hk2]
        exact h
      · rw [if_neg hk2] at h
        simp only [cacheGet, if_neg hk2]
        exact ih h

theorem healSelector_resolves (env : HealEnv) (z : String)
    (h : healSelector env = some z) : env.resolves z = true := by
  cases hb : env.backend with
  | none =>
    unfold healSelector at h
    rw [hb] at h
    exact absurd h (by simp)
  | some raw =>
    unfold healSelector at h
    rw [hb] at h
    have h2 : (if env.resolves (cleanResponse raw) = true
        then some (cleanResponse raw) else none) = some z := h
    by_cases hr : env.resolves (cleanResponse raw) = true
    · rw [if_pos hr] at h2
      rw [← Option.some.inj h2]
      exact hr
    · rw [if_neg hr] at h2
      exact absurd h2 (by simp)

/-! ### Concrete environments and states used as witnesses -/

/-- A document where nothing resolves, with a failing AI backend. -/
def envNothing : HealEnv :=
  { resolves := fun _ => false, backend := none }

/-- A document where only the primary selector resolves. -/
def envHappy : HealEnv :=
  { resolves := fun s => s == "#login-button", backend := none }

/-- The empty engine state: empty map, no cache file on disk. -/
def stEmpty : FindState :=
  { cache := [], file := none }

/-! ### Claims -/

/-- C2 counterexample: with the feature flag off and a primary selector
that does not resolve anywhere in the document, `findElement` still returns
the primary locator as a success — no `ResolutionFailure` surfaces from the
call, refuting the part of the claim that says a primary-lookup failure
surfaces immediately to the caller. -/
theorem c2_counterexample :
    (findElement false envNothing 0 stEmpty "#gone").result
      = Except.ok "#gone"
    ∧ envNothing.resolves "#gone" = false := ⟨rfl, rfl⟩

/-- C2 (amended): with the feature flag off, `findElement` performs no
repair request and no cache write, returns the primary locator
unconditionally, and its result does not depend on the document, the clock
or the cache state (so no cache read can influence it); in particular no
`ResolutionFailure` is ever raised on this path. -/
theorem c2_disabled_passthrough (env env2 : HealEnv) (now now2 : Nat)
    (st st2 : FindState) (sel : String) :
    findElement false env now st sel
      = { result := Except.ok sel, state := st, repairCalls := 0 }
    ∧ (findElement false env now st sel).result
      = (findElement false env2 now2 st2 sel).result := ⟨rfl, rfl⟩

/-- C6: when the primary selector resolves within the bounded wait, the
call returns it immediately with zero repair-requester invocations and the
engine state — cache map and persisted file alike — unchanged. -/
theorem c6_happy_path (env : HealEnv) (now : Nat) (st : FindState)
    (sel : String) (h : env.resolves sel = true) :
    findElement true env now st sel
      = { result := Except.ok sel, state := st, repairCalls := 0 } := by
  simp [findElement, h]

/-- C6 witness: the happy path at a concrete document and selector. -/
theorem c6_happy_path_witness :
    findElement true envHappy 7 stEmpty "#login-button"
      = { result := Except.ok "#login-button", state := stEmpty,
          repairCalls := 0 } :=
  c6_happy_path envHappy 7 stEmpty "#login-button" rfl

/-- C10: self-healing is enabled exactly when `ENABLE_SELF_HEALING` is not
the exact lowercase string `false`; an unset variable, `FALSE`, `0` and
`no` all leave it enabled. -/
theorem c10_enabled_flag :
    selfHealingEnabled none = true
    ∧ selfHealingEnabled (some "FALSE") = true
    ∧ selfHealingEnabled (some "0") = true
    ∧ selfHealingEnabled (some "no") = true
    ∧ selfHealingEnabled (some "false") = false
    ∧ ∀ v : Option String, selfHealingEnabled v = !(v == some "false") :=
  ⟨rfl, rfl, rfl, rfl, rfl, fun _ => rfl⟩

/-! ### Path lemmas for `findElement` -/

theorem findElement_happy (env : HealEnv) (now : Nat) (st : FindState)
    (sel : String) (hp : env.resolves sel = true) :
    findElement true env now st sel
      = { result := Except.ok sel, state := st, repairCalls := 0 } := by
  simp [findElement, hp]

theorem findElement_no_cache (env : HealEnv) (now : Nat) (st : FindState)
    (sel : String) (hp : env.resolves sel = false)
    (hc : cacheGet st.cache sel = none) :
    findElement true env now st sel = attemptHeal env now st sel := by
  simp [findElement, hp, hc]

theorem findElement_cached_fresh_ok (env : HealEnv) (now : Nat)
    (st : FindState) (sel : String) (e : CacheEntry)
    (hp : env.resolves sel = false) (hc : cacheGet st.cache sel = some e)
    (ht : (now : Int) - (e.timestamp : Int) < 3600000)
    (hr : env.resolves e.healedSelector = true) :
    findElement true env now st sel
      = { result := Except.ok e.healedSelector, state := st,
          repairCalls := 0 } := by
  simp [findElement, hp, hc, ht, hr]

theorem findElement_cached_fresh_fail (env : HealEnv) (now : Nat)
    (st : FindState) (sel : String) (e : CacheEntry)
    (hp : env.resolves sel = false) (hc : cacheGet st.cache sel = some e)
    (ht : (now : Int) - (e.timestamp : Int) < 3600000)
    (hr : env.resolves e.healedSelector = false) :
    findElement true env now st sel
      = attemptHeal env now
          { st with cache := cacheDelete st.cache sel } sel := by
  simp [findElement, hp, hc, ht, hr]

theorem findElement_cached_expired (env : HealEnv) (now : Nat)
    (st : FindState) (sel : String) (e : CacheEntry)
    (hp : env.resolves sel = false) (hc : cacheGet st.cache sel = some e)
    (ht : ¬ ((now : Int) - (e.timestamp : Int) < 3600000)) :
    findElement true env now st sel = attemptHeal env now st sel := by
  simp [findElement, hp, hc, ht]

/-! ### Lemmas about `attemptHeal` -/

theorem attemptHeal_of_none (env : HealEnv) (now : Nat) (st : FindState)
    (sel : String) (hh : healSelector env = none) :
    attemptHeal env now st sel
      = { result := Except.error (errorMessage sel), state := st,
          repairCalls := 1 } := by
  simp [attemptHeal, hh]

theorem attemptHeal_of_some (env : HealEnv) (now : Nat) (st : FindState)
    (sel : String) (z : String) (hh : healSelector env = some z) :
    attemptHeal env now st sel
      = { result := Except.ok z,
          state :=
            { cache := cacheSet st.cache sel
                { healedSelector := z, timestamp := now,
                  confidence := defaultConfidence },
              file := some (cacheSet st.cache sel
                { healedSelector := z, timestamp := now,
                  confidence := defaultConfidence }) },
          repairCalls := 1 } := by
  simp [attemptHeal, hh, saveCache]

theorem attemptHeal_result_indep (env : HealEnv) (now : Nat)
    (st st2 : FindState) (sel : String) :
    (attemptHeal env now st sel).result
      = (attemptHeal env now st2 sel).result := by
  unfold attemptHeal
  cases healSelector env <;> rfl

theorem attemptHeal_repairCalls (env : HealEnv) (now : Nat) (st : FindState)
    (sel : String) : (attemptHeal env now st sel).repairCalls = 1 := by
  unfold attemptHeal
  cases healSelector env <;> rfl

theorem attemptHeal_validated (env : HealEnv) (now : Nat) (st : FindState)
    (sel : String) :
    (∀ s, (attemptHeal env now st sel).result = Except.ok s →
      env.resolves s = true)
    ∧ (∀ k e, cacheGet (attemptHeal env now st sel).state.cache k = some e →
      cacheGet st.cache k = some e ∨ env.resolves e.healedSelector = true) := by
  cases hh : healSelector env with
  | none =>
    rw [attemptHeal_of_none env now st sel hh]
    constructor
    · intro s h
      exact absurd h (by simp)
    · intro k e h
      exact Or.inl h
  | some z =>
    have hz := healSelector_resolves env z hh
    rw [attemptHeal_of_some env now st sel z hh]
    constructor
    · intro s h
      simp only [Except.ok.injEq] at h
      rw [← h]
      exact hz
    · intro k e h
      rcases cacheGet_set_cases st.cache sel _ k e h with he | he
      · right
        rw [he]
        exact hz
      · exact Or.inl he

theorem attemptHeal_error_msg (env : HealEnv) (now : Nat) (st : FindState)
    (sel : String) (m : String)
    (h : (attemptHeal env now st sel).result = Except.error m) :
    m = errorMessage sel := by
  cases hh : healSelector env with
  | none =>
    rw [attemptHeal_of_none env now st sel hh] at h
    simp only [Except.error.injEq] at h
    exact h.symm
  | some z =>
    rw [attemptHeal_of_some env now st sel z hh] at h
    exact absurd h (by simp)

/-- A document where only `#new-z` resolves, with a backend suggesting
exactly that selector. -/
def envZ : HealEnv :=
  { resolves := fun s => s == "#new-z", backend := some "#new-z" }

/-- A cache entry healed long ago, pointing at `#old-y`. -/
def entryOldY : CacheEntry :=
  { healedSelector := "#old-y", timestamp := 0,
    confidence := defaultConfidence }

/-- An engine state whose map and file both hold the entry for `#x`. -/
def stWithX : FindState :=
  { cache := [("#x", entryOldY)], file := some [("#x", entryOldY)] }

/-- C1: with the feature enabled, every selector returned as a success has
passed the live-document resolution check within the call, and every cache
entry present after the call either was already there before it or holds a
healed selector that passed validation — no unvalidated AI suggestion is
returned or cached. -/
theorem c1_success_validated (env : HealEnv) (now : Nat) (st : FindState)
    (sel : String) :
    (∀ s, (findElement true env now st sel).result = Except.ok s →
      env.resolves s = true)
    ∧ (∀ k e,
        cacheGet (findElement true env now st sel).state.cache k = some e →
        cacheGet st.cache k = some e
          ∨ env.resolves e.healedSelector = true) := by
  cases hp : env.resolves sel with
  | true =>
    rw [findElement_happy env now st sel hp]
    constructor
    · intro s h
      simp only [Except.ok.injEq] at h
      rw [← h]
      exact hp
    · intro k e h
      exact Or.inl h
  | false =>
    cases hc : cacheGet st.cache sel with
    | none =>
      rw [findElement_no_cache env now st sel hp hc]
      exact attemptHeal_validated env now st sel
    | some e =>
      by_cases ht : (now : Int) - (e.timestamp : Int) < 3600000
      · cases hr : env.resolves e.healedSelector with
        | true =>
          rw [findElement_cached_fresh_ok env now st sel e hp hc ht hr]
          constructor
          · intro s h
            simp only [Except.ok.injEq] at h
            rw [← h]
            exact hr
          · intro k e2 h
            exact Or.inl h
        | false =>
          rw [findElement_cached_fresh_fail env now st sel e hp hc ht hr]
          obtain ⟨hok, hcache⟩ := attemptHeal_validated env now
            { st with cache := cacheDelete st.cache sel } sel
          refine ⟨hok, ?_⟩
          intro k e2 h
          rcases hcache k e2 h with hin | hres
          · exact Or.inl (cacheGet_delete_of st.cache sel k e2 hin)
          · exact Or.inr hres
      · rw [findElement_cached_expired env now st sel e hp hc ht]
        exact attemptHeal_validated env now st sel

/-- C1 witness: the happy-path instance of the validated-success guarantee
at a concrete document and selector. -/
theorem c1_success_validated_witness :
    envHappy.resolves "#login-button" = true :=
  (c1_success_validated envHappy 7 stEmpty "#login-button").1
    "#login-button" rfl

/-- C3: primary fails, a non-expired entry maps it to a cached selector
that also fails — the call invokes a fresh repair, and when the repair
yields a validated candidate the store afterward maps the primary to that
new candidate, replacing the old entry. -/
theorem c3_cache_staleness (env : HealEnv) (now : Nat) (st : FindState)
    (sel : String) (e : CacheEntry) (z : String)
    (h1 : env.resolves sel = false)
    (h2 : cacheGet st.cache sel = some e)
    (h3 : (now : Int) - (e.timestamp : Int) < 3600000)
    (h4 : env.resolves e.healedSelector = false)
    (h5 : healSelector env = some z) :
    (findElement true env now st sel).result = Except.ok z
    ∧ (findElement true env now st sel).repairCalls = 1
    ∧ cacheGet (findElement true env now st sel).state.cache sel
        = some { healedSelector := z, timestamp := now,
                 confidence := defaultConfidence } := by
  rw [findElement_cached_fresh_fail env now st sel e h1 h2 h3 h4,
    attemptHeal_of_some env now
      { st with cache := cacheDelete st.cache sel } sel z h5]
  exact ⟨rfl, rfl, cacheGet_set_self _ _ _⟩

/-- C3 witness: a concrete fresh-but-broken cache entry replaced by the
validated repair candidate `#new-z`. -/
theorem c3_cache_staleness_witness :
    cacheGet (findElement true envZ 1000 stWithX "#x").state.cache "#x"
      = some { healedSelector := "#new-z", timestamp := 1000,
               confidence := defaultConfidence } :=
  (c3_cache_staleness envZ 1000 stWithX "#x" entryOldY "#new-z"
    rfl rfl (by decide) rfl rfl).2.2

/-- C5: an entry created at time `T` with the default one-hour TTL is
treated as absent by a lookup at `T + 61` minutes — the call proceeds
straight to the repair attempt without replaying the cached healed
selector, and its outcome equals the outcome with the entry removed. -/
theorem c5_ttl_expiry (env : HealEnv) (now : Nat) (st : FindState)
    (sel : String) (e : CacheEntry)
    (h1 : env.resolves sel = false)
    (h2 : cacheGet st.cache sel = some e)
    (h3 : e.timestamp + 3660000 ≤ now) :
    findElement true env now st sel = attemptHeal env now st sel
    ∧ (findElement true env now st sel).result
        = (findElement true env now
            { st with cache := cacheDelete st.cache sel } sel).result := by
  have ht : ¬ ((now : Int) - (e.timestamp : Int) < 3600000) := by omega
  have he := findElement_cached_expired env now st sel e h1 h2 ht
  have hd := findElement_no_cache env now
    { st with cache := cacheDelete st.cache sel } sel h1
    (cacheGet_delete_self st.cache sel)
  refine ⟨he, ?_⟩
  rw [he, hd]
  exact attemptHeal_result_indep env now st
    { st with cache := cacheDelete st.cache sel } sel

/-- C5 witness: the 61-minutes-later lookup of a concrete entry created at
time 0 goes straight to repair. -/
theorem c5_ttl_expiry_witness :
    findElement true envNothing 3660000 stWithX "#x"
      = attemptHeal envNothing 3660000 stWithX "#x" :=
  (c5_ttl_expiry envNothing 3660000 stWithX "#x" entryOldY
    rfl rfl (by decide)).1

theorem findElement_repairCalls_le_one (enabled : Bool) (env : HealEnv)
    (now : Nat) (st : FindState) (sel : String) :
    (findElement enabled env now st sel).repairCalls ≤ 1 := by
  cases enabled with
  | false => exact Nat.zero_le 1
  | true =>
    cases hp : env.resolves sel with
    | true =>
      rw [findElement_happy env now st sel hp]
      exact Nat.zero_le 1
    | false =>
      cases hc : cacheGet st.cache sel with
      | none =>
        rw [findElement_no_cache env now st sel hp hc,
          attemptHeal_repairCalls]
      | some e =>
        by_cases ht : (now : Int) - (e.timestamp : Int) < 3600000
        · cases hr : env.resolves e.healedSelector with
          | true =>
            rw [findElement_cached_fresh_ok env now st sel e hp hc ht hr]
            exact Nat.zero_le 1
          | false =>
            rw [findElement_cached_fresh_fail env now st sel e hp hc ht hr,
              attemptHeal_repairCalls]
        · rw [findElement_cached_expired env now st sel e hp hc ht,
            attemptHeal_repairCalls]

/-- C8: when the external AI backend call fails, `healSelector` returns
`null` instead of propagating the exception; a `findElement` call makes at
most one repair attempt, and whenever that single attempt happened under a
failed backend, the only caller-visible outcome is the orchestrator's
resolution failure. -/
theorem c8_backend_failure (env : HealEnv) (now : Nat) (st : FindState)
    (sel : String) (hb : env.backend = none) :
    healSelector env = none
    ∧ (findElement true env now st sel).repairCalls ≤ 1
    ∧ ((findElement true env now st sel).repairCalls = 1 →
        (findElement true env now st sel).result
          = Except.error (errorMessage sel)) := by
  have hh : healSelector env = none := by
    unfold healSelector
    rw [hb]
  refine ⟨hh, findElement_repairCalls_le_one true env now st sel, ?_⟩
  intro h1
  cases hp : env.resolves sel with
  | true =>
    rw [findElement_happy env now st sel hp] at h1
    exact absurd h1 (by simp)
  | false =>
    cases hc : cacheGet st.cache sel with
    | none =>
      rw [findElement_no_cache env now st sel hp hc,
        attemptHeal_of_none env now st sel hh]
    | some e =>
      by_cases ht : (now : Int) - (e.timestamp : Int) < 3600000
      · cases hr : env.resolves e.healedSelector with
        | true =>
          rw [findElement_cached_fresh_ok env now st sel e hp hc ht hr] at h1
          exact absurd h1 (by simp)
        | false =>
          rw [findElement_cached_fresh_fail env now st sel e hp hc ht hr,
            attemptHeal_of_none env now
              { st with cache := cacheDelete st.cache sel } sel hh]
      · rw [findElement_cached_expired env now st sel e hp hc ht,
          attemptHeal_of_none env now st sel hh]

/-- C8 witness: a failed backend at a concrete call yields the resolution
failure for the original selector after the single repair attempt. -/
theorem c8_backend_failure_witness :
    (findElement true envNothing 0 stEmpty "#gone2").result
      = Except.error (errorMessage "#gone2") :=
  (c8_backend_failure envNothing 0 stEmpty "#gone2" rfl).2.2 rfl

/-- C9 counterexample: at time 3660000 the entry for `#x` (created at time
0, so past the one-hour TTL) is observed as expired by the lookup, the
repair fails, and the store still contains the old entry afterward — expiry
does not delete it. -/
theorem c9_counterexample :
    cacheGet (findElement true envNothing 3660000 stWithX "#x").state.cache
        "#x" = some entryOldY
    ∧ (3600000 : Int) ≤ (3660000 : Int) - (entryOldY.timestamp : Int)
    ∧ (findElement true envNothing 3660000 stWithX "#x").repairCalls
        = 1 := by
  refine ⟨rfl, by decide, rfl⟩

/-- C9 (amended): an entry older than the TTL is merely skipped by the
lookup, not deleted: after the call the store still holds the old entry if
the repair attempt failed, and holds the freshly validated replacement if
the repair succeeded. Deletion happens only for a non-expired entry whose
replayed candidate fails validation. -/
theorem c9_expired_entry_retained (env : HealEnv) (now : Nat)
    (st : FindState) (sel : String) (e : CacheEntry)
    (h1 : env.resolves sel = false)
    (h2 : cacheGet st.cache sel = some e)
    (h3 : ¬ ((now : Int) - (e.timestamp : Int) < 3600000)) :
    (healSelector env = none →
      cacheGet (findElement true env now st sel).state.cache sel = some e)
    ∧ (∀ z, healSelector env = some z →
        cacheGet (findElement true env now st sel).state.cache sel
          = some { healedSelector := z, timestamp := now,
                   confidence := defaultConfidence }) := by
  rw [findElement_cached_expired env now st sel e h1 h2 h3]
  constructor
  · intro hh
    rw [attemptHeal_of_none env now st sel hh]
    exact h2
  · intro z hh
    rw [attemptHeal_of_some env now st sel z hh]
    exact cacheGet_set_self _ _ _

/-- C9 witness: the concrete expired entry for `#x` survives the failed
repair attempt. -/
theorem c9_expired_entry_retained_witness :
    cacheGet (findElement true envNothing 3660000 stWithX "#x").state.cache
      "#x" = some entryOldY :=
  (c9_expired_entry_retained envNothing 3660000 stWithX "#x" entryOldY
    rfl rfl (by decide)).1 rfl

/-- C4 counterexample: primary `#x` fails, its fresh cache entry is
replayed and fails, so the call deletes the in-memory entry; the repair
also fails, so no save follows — afterward the in-memory map is empty while
the persisted file still holds the deleted entry, refuting the claim that
every mutation is followed by a synchronous write of the full map. -/
theorem c4_counterexample :
    (findElement true envNothing 1000 stWithX "#x").state.cache = []
    ∧ (findElement true envNothing 1000 stWithX "#x").state.file
        = some [("#x", entryOldY)]
    ∧ ((findElement true envNothing 1000 stWithX "#x").state.file
        == some (findElement true envNothing 1000 stWithX "#x").state.cache)
        = false := by
  refine ⟨rfl, rfl, by decide⟩

/-- C4 (amended): the persisted file reflects the in-memory map after a
mutation only on the paths that call `saveCache`: after a call whose repair
attempt succeeded (the entry-creation write), the file equals the map; and
`clearCache` empties the map while removing the file rather than writing an
empty one. The in-memory deletion of a stale replayed entry alone is not
persisted. -/
theorem c4_persistence (env : HealEnv) (now : Nat) (st : FindState)
    (sel z : String) (hz : healSelector env = some z)
    (hr : (findElement true env now st sel).repairCalls = 1) :
    (findElement true env now st sel).state.file
      = some (findElement true env now st sel).state.cache
    ∧ (clearCache st).cache = [] ∧ (clearCache st).file = none := by
  refine ⟨?_, rfl, rfl⟩
  have ha : ∀ st2, (attemptHeal env now st2 sel).state.file
      = some (attemptHeal env now st2 sel).state.cache := by
    intro st2
    rw [attemptHeal_of_some env now st2 sel z hz]
  cases hp : env.resolves sel with
  | true =>
    rw [findElement_happy env now st sel hp] at hr
    exact absurd hr (by simp)
  | false =>
    cases hc : cacheGet st.cache sel with
    | none =>
      rw [findElement_no_cache env now st sel hp hc]
      exact ha st
    | some e =>
      by_cases ht : (now : Int) - (e.timestamp : Int) < 3600000
      · cases hre : env.resolves e.healedSelector with
        | true =>
          rw [findElement_cached_fresh_ok env now st sel e hp hc ht hre]
            at hr
          exact absurd hr (by simp)
        | false =>
          rw [findElement_cached_fresh_fail env now st sel e hp hc ht hre]
          exact ha { st with cache := cacheDelete st.cache sel }
      · rw [findElement_cached_expired env now st sel e hp hc ht]
        exact ha st

/-- C4 witness: after a concrete successful repair the file equals the
in-memory map. -/
theorem c4_persistence_witness :
    (findElement true envZ 1000 stEmpty "#x").state.file
      = some (findElement true envZ 1000 stEmpty "#x").state.cache :=
  (c4_persistence envZ 1000 stEmpty "#x" "#new-z" rfl rfl).1

/-- A document where nothing resolves, with a backend that suggests the
candidate `#zzz` (which then fails validation). -/
def envBadSuggestion : HealEnv :=
  { resolves := fun _ => false, backend := some "#zzz" }

/-- C7 counterexample: primary, cache and repair all fail while a repair
candidate (`#zzz`) was attempted; the surfaced error message carries the
original primary selector but the attempted candidate appears nowhere in
it. -/
theorem c7_counterexample :
    (findElement true envBadSuggestion 0 stEmpty "#x").result
      = Except.error "Could not find or heal selector: #x"
    ∧ healCandidate envBadSuggestion = some "#zzz"
    ∧ envBadSuggestion.resolves "#zzz" = false
    ∧ listInfix "#zzz".data "Could not find or heal selector: #x".data
        = false := by
  refine ⟨rfl, rfl, rfl, by decide⟩

/-- C7 (amended): whenever a `findElement` call errors, the single error it
surfaces is the resolution failure whose message is built from the original
primary selector only; the last attempted repair candidate is not carried
in it. -/
theorem c7_error_carries_primary (env : HealEnv) (now : Nat) (st : FindState)
    (sel : String) :
    ∀ m, (findElement true env now st sel).result = Except.error m →
      m = errorMessage sel := by
  intro m hm
  cases hp : env.resolves sel with
  | true =>
    rw [findElement_happy env now st sel hp] at hm
    exact absurd hm (by simp)
  | false =>
    cases hc : cacheGet st.cache sel with
    | none =>
      rw [findElement_no_cache env now st sel hp hc] at hm
      exact attemptHeal_error_msg env now st sel m hm
    | some e =>
      by_cases ht : (now : Int) - (e.timestamp : Int) < 3600000
      · cases hr : env.resolves e.healedSelector with
        | true =>
          rw [findElement_cached_fresh_ok env now st sel e hp hc ht hr] at hm
          exact absurd hm (by simp)
        | false =>
          rw [findElement_cached_fresh_fail env now st sel e hp hc ht hr]
            at hm
          exact attemptHeal_error_msg env now
            { st with cache := cacheDelete st.cache sel } sel m hm
      · rw [findElement_cached_expired env now st sel e hp hc ht] at hm
        exact attemptHeal_error_msg env now st sel m hm

/-- C7 amended witness: a concrete exhausted call surfaces exactly the
resolution-failure message for the original selector. -/
theorem c7_error_carries_primary_witness :
    "Could not find or heal selector: #w" = errorMessage "#w" :=
  c7_error_carries_primary envNothing 0 stEmpty "#w"
    "Could not find or heal selector: #w" rfl
